import Mathlib

/-!
Shallow embedding of the `full_treatment_train.example_flowsheets` scripts
(`pretreatment.py` and `costing.py`) of the watertap repository.

`build_pretreatment_NF` is modelled as a function from its three arguments
to the ordered trace of framework calls it performs (property-package
resolution, unit construction, arc declaration, fixing, scaling,
initialization, state propagation) together with either the returned port
mapping or the raised exception.  `build_costing` is modelled likewise over
an abstract flowsheet that records which optional unit blocks are present.
`display_costing` is modelled as a function on a record of the cost
attributes the routine reads, returning the (possibly mutated) flowsheet
and either the ordered report lines or the raised exception.
-/

/-- Exceptions raised by the modelled code. -/
inductive PyError where
  | valueError (msg : String)
  | notImplementedError (msg : String)
  | attributeError (name : String)
  deriving DecidableEq, Repr

/-- One framework call performed by `build_pretreatment_NF`, in program order. -/
inductive Event where
  | getProp (base : String)
  | buildFeed (base : String)
  | buildSepNF (base : String)
  | buildZONF (base : String)
  | buildUnit (name : String)
  | declareArc (name source destination : String)
  | fixSplitFraction (outlet : String) (fraction : ℚ)
  | calculateScalingFactors (unit : String)
  | init (unit : String)
  | propagateState (arc : String)
  deriving DecidableEq, Repr

/-- Body of `build_pretreatment_NF` after the NF unit has been built
(the `if has_bypass:` / `else:` part, lines 52-112 of pretreatment.py).
`trace` is the list of calls already performed. -/
def build_pretreatment_NF_rest (has_bypass : Bool) (NF_type : String)
    (trace : List Event) : List Event × Except PyError (List (String × String)) :=
  if has_bypass then
    let trace := trace ++
      [Event.buildUnit "splitter",
       Event.buildUnit "mixer",
       Event.declareArc "s_pretrt_feed_splitter" "feed.outlet" "splitter.inlet",
       Event.declareArc "s_pretrt_splitter_mixer" "splitter.bypass" "mixer.bypass",
       Event.declareArc "s_pretrt_splitter_NF" "splitter.pretreatment" "NF.inlet",
       Event.declareArc "s_pretrt_NF_mixer" "NF.permeate" "mixer.pretreatment",
       Event.fixSplitFraction "bypass" (1/10),
       Event.calculateScalingFactors "splitter",
       Event.calculateScalingFactors "mixer",
       Event.init "feed",
       Event.propagateState "s_pretrt_feed_splitter",
       Event.init "splitter",
       Event.propagateState "s_pretrt_splitter_mixer",
       Event.propagateState "s_pretrt_splitter_NF"] ++
      (if NF_type ≠ "Sep" then [Event.init "NF"] else []) ++
      [Event.propagateState "s_pretrt_NF_mixer",
       Event.init "mixer"]
    (trace, Except.ok [("out", "mixer.outlet"), ("waste", "NF.retentate")])
  else
    let trace := trace ++
      [Event.declareArc "s_pretrt_feed_NF" "feed.outlet" "NF.inlet",
       Event.init "feed",
       Event.propagateState "s_pretrt_feed_NF"] ++
      (if NF_type ≠ "Sep" then [Event.init "NF"] else [])
    (trace, Except.ok [("out", "NF.permeate"), ("waste", "NF.retentate")])

/-- `build_pretreatment_NF(m, has_bypass, NF_type, NF_base)`
(pretreatment.py lines 27-112): resolves the property package, builds the
feed, builds the NF unit according to `NF_type` (raising `ValueError` for an
unrecognized type), then wires, specifies, scales and initializes the
network, returning the `pretrt_port` mapping. -/
def build_pretreatment_NF (has_bypass : Bool) (NF_type NF_base : String) :
    List Event × Except PyError (List (String × String)) :=
  let trace : List Event := [Event.getProp NF_base, Event.buildFeed NF_base]
  if NF_type = "Sep" then
    build_pretreatment_NF_rest has_bypass NF_type (trace ++ [Event.buildSepNF NF_base])
  else if NF_type = "ZO" then
    build_pretreatment_NF_rest has_bypass NF_type (trace ++ [Event.buildZONF NF_base])
  else
    (trace, Except.error (PyError.valueError
      ("Unexpected model type " ++ NF_type ++ " provided to build_NF_no_bypass")))

/-- The arcs declared in a trace, in order: (attribute name, source port, destination port). -/
def arcsDeclared (t : List Event) : List (String × String × String) :=
  t.filterMap fun e =>
    match e with
    | Event.declareArc n s d => some (n, s, d)
    | _ => none

/-- The auxiliary unit blocks built in a trace, in order. -/
def unitsBuilt (t : List Event) : List String :=
  t.filterMap fun e =>
    match e with
    | Event.buildUnit u => some u
    | _ => none

/-- The split fractions fixed in a trace, in order. -/
def splitFractionsFixed (t : List Event) : List (String × ℚ) :=
  t.filterMap fun e =>
    match e with
    | Event.fixSplitFraction o f => some (o, f)
    | _ => none

/-- The subsequence of initialization and state-propagation calls of a trace. -/
def initPropEvents (t : List Event) : List Event :=
  t.filter fun e =>
    match e with
    | Event.init _ => true
    | Event.propagateState _ => true
    | _ => false

/-- The unit owning a port string such as "feed.outlet". -/
def unitOfPort (p : String) : String := String.mk (p.toList.takeWhile (· ≠ '.'))

/-- The source unit of the arc named `a`, read off the arc declarations in `t`. -/
def arcSourceUnit (t : List Event) (a : String) : Option String :=
  (t.filterMap fun e =>
    match e with
    | Event.declareArc n s _ => if n = a then some (unitOfPort s) else none
    | _ => none).head?

/-- Every `propagateState` call on an arc outside `exempt` is preceded in the
trace by an `init` call on the arc's source unit. -/
def propagationsRespectInitExceptB (exempt : List String) (t : List Event) : Bool :=
  (List.range t.length).all fun i =>
    match t.drop i with
    | Event.propagateState a :: _ =>
        if exempt.contains a then true
        else
          match arcSourceUnit t a with
          | some u => (t.take i).contains (Event.init u)
          | none => false
    | _ => true

/-- Every `propagateState` call is preceded by an `init` of the arc's source unit. -/
def propagationsRespectInitB (t : List Event) : Bool :=
  propagationsRespectInitExceptB [] t

/-- Claim C1, counterexample: at the unrecognized variant "XO" (bypass
enabled, ion basis) the builder does raise `ValueError`, but the property
package has already been resolved and the feed block already built when it
does, contradicting "before any construction occurs". -/
theorem build_pretreatment_NF_unrecognized_feed_already_built :
    (build_pretreatment_NF true "XO" "ion").2 =
      Except.error (PyError.valueError
        "Unexpected model type XO provided to build_NF_no_bypass") ∧
    Event.getProp "ion" ∈ (build_pretreatment_NF true "XO" "ion").1 ∧
    Event.buildFeed "ion" ∈ (build_pretreatment_NF true "XO" "ion").1 := by
  refine ⟨rfl, ?_, ?_⟩ <;> decide

/-- Claim C1, amended: for every variant string outside {"ZO", "Sep"} (and
either bypass setting and any base), `build_pretreatment_NF` raises
`ValueError`; the property package resolution and the feed build have
already happened, and nothing else — no NF unit, no splitter, no mixer, no
arc — has been constructed. -/
theorem build_pretreatment_NF_unrecognized_raises (has_bypass : Bool)
    (NF_type NF_base : String) (h1 : NF_type ≠ "Sep") (h2 : NF_type ≠ "ZO") :
    build_pretreatment_NF has_bypass NF_type NF_base =
      ([Event.getProp NF_base, Event.buildFeed NF_base],
       Except.error (PyError.valueError
         ("Unexpected model type " ++ NF_type ++ " provided to build_NF_no_bypass"))) := by
  simp [build_pretreatment_NF, h1, h2]

/-- Witness for the amended claim C1 at the concrete variant "XO". -/
theorem build_pretreatment_NF_unrecognized_raises_witness :
    ("XO" : String) ≠ "Sep" ∧ ("XO" : String) ≠ "ZO" ∧
    build_pretreatment_NF true "XO" "ion" =
      ([Event.getProp "ion", Event.buildFeed "ion"],
       Except.error (PyError.valueError
         ("Unexpected model type " ++ "XO" ++ " provided to build_NF_no_bypass"))) :=
  ⟨by decide, by decide,
   build_pretreatment_NF_unrecognized_raises true "XO" "ion" (by decide) (by decide)⟩

/-- Which optional unit blocks are attached to the flowsheet (`hasattr(m.fs, ...)`
checks of costing.py). -/
structure FlowsheetAttrs where
  NF : Bool
  RO : Bool
  pump_RO : Bool
  pump_RO2 : Bool
  RO2 : Bool
  stoich_softening_mixer_unit : Bool
  ideal_naocl_mixer_unit : Bool
  deriving DecidableEq, Repr

/-- One call performed by `build_costing`, in program order: a unit block's
`get_costing(...)` with its keyword arguments, or the final `get_system_costing`. -/
inductive CostEvent where
  | getCosting (unit : String) (kw : List (String × String))
  | getSystemCosting
  deriving DecidableEq, Repr

/-- `build_costing(m, module, **kwargs)` (costing.py lines 20-64): for each
optional unit present on the flowsheet, dispatch to its `get_costing`; the
`Sep` variants of NF and RO raise `NotImplementedError`; unrecognized variant
strings fall through the `if`/`elif` silently; finally `get_system_costing`
is called on the flowsheet. -/
def build_costing (fs : FlowsheetAttrs) (NF_type RO_type : String) :
    List CostEvent × Except PyError Unit :=
  if fs.NF = true ∧ NF_type = "Sep" then
    ([], Except.error (PyError.notImplementedError
      "get_costing will not be implemented for the NF separator model."))
  else
    let t := if fs.NF = true ∧ NF_type = "ZO" then [CostEvent.getCosting "NF" []] else []
    if fs.RO = true ∧ RO_type = "Sep" then
      (t, Except.error (PyError.notImplementedError
        "get_costing will not be implemented for the RO separator model."))
    else
      let t := t ++ (if fs.RO = true ∧ RO_type = "0D" then [CostEvent.getCosting "RO" []] else [])
      let t := t ++ (if fs.pump_RO then
        [CostEvent.getCosting "pump_RO" [("pump_type", "High pressure")]] else [])
      let t := t ++ (if fs.pump_RO2 then
        [CostEvent.getCosting "pump_RO2" [("pump_type", "High pressure")]] else [])
      let t := t ++ (if fs.RO2 then [CostEvent.getCosting "RO2" []] else [])
      let t := t ++ (if fs.stoich_softening_mixer_unit then
        [CostEvent.getCosting "stoich_softening_mixer_unit" [("mixer_type", "lime_softening")]] else [])
      let t := t ++ (if fs.ideal_naocl_mixer_unit then
        [CostEvent.getCosting "ideal_naocl_mixer_unit" [("mixer_type", "naocl_mixer")]] else [])
      (t ++ [CostEvent.getSystemCosting], Except.ok ())

/-- The cost attributes read by `display_costing`.  Aggregate values live on
`m.fs.costing` / `m.fs.costing_param` / `m.fs.annual_water_production`; each
optional unit block is `some` of its costing data when attached to the
flowsheet and `none` when absent.  For the pumps and membranes the datum is
`costing.operating_cost`; for the two pretreatment mixers it is the pair
`(costing.capital_cost, costing.operating_cost)`. -/
structure CostFS where
  LCOW : ℚ
  investment_cost_total : ℚ
  capital_cost_total : ℚ
  operating_cost_total : ℚ
  operating_cost_MLC : ℚ
  factor_capital_annualization : ℚ
  annual_water_production : ℚ
  pump_RO : Option ℚ
  pump_RO2 : Option ℚ
  NF : Option ℚ
  RO : Option ℚ
  RO2 : Option ℚ
  stoich_softening_mixer_unit : Option (ℚ × ℚ)
  ideal_naocl_mixer_unit : Option (ℚ × ℚ)
  deriving DecidableEq, Repr

/-- `display_costing(m)` (costing.py lines 80-145): backfills zero-valued
placeholder costing blocks for absent `pump_RO2`, `NF`, `RO2`; then builds
`cost_dict` (raising `AttributeError` if `pump_RO` or `RO` is absent, in
that order) and prints its labeled lines, the rounded LCOW line, the two
pump specific-Opex lines, and the lime-softening / chlorination lines when
those mixers are present.  Returns the flowsheet as mutated by the backfill
together with the ordered (label, value) report lines. -/
def display_costing (fs : CostFS) : CostFS × Except PyError (List (String × ℚ)) :=
  let crf := fs.factor_capital_annualization
  let fs := if fs.pump_RO2.isNone then { fs with pump_RO2 := some 0 } else fs
  let fs := if fs.NF.isNone then { fs with NF := some 0 } else fs
  let fs := if fs.RO2.isNone then { fs with RO2 := some 0 } else fs
  match fs.pump_RO with
  | none => (fs, Except.error (PyError.attributeError "pump_RO"))
  | some pump_RO_oc =>
    match fs.RO with
    | none => (fs, Except.error (PyError.attributeError "RO"))
    | some RO_oc =>
      let awp := fs.annual_water_production
      let pump_RO2_oc := fs.pump_RO2.getD 0
      let NF_oc := fs.NF.getD 0
      let RO2_oc := fs.RO2.getD 0
      let lines : List (String × ℚ) :=
        [("LCOW", fs.LCOW),
         ("Total CAPEX", fs.investment_cost_total * crf / awp),
         ("Direct CAPEX", fs.capital_cost_total * crf / awp),
         ("Indirect CAPEX", (fs.investment_cost_total - fs.capital_cost_total) * crf / awp),
         ("Total OPEX", fs.operating_cost_total / awp),
         ("Maintenance/Labor/Chemical Costs", fs.operating_cost_MLC),
         ("Total Electricity Cost", (pump_RO_oc + pump_RO2_oc) / awp),
         ("Stage 1 HP Pump Electricity Cost", pump_RO_oc / awp),
         ("Stage 2 HP Pump Electricity Cost", pump_RO2_oc / awp),
         ("Total Membrane Replacement Cost", (NF_oc + RO_oc + RO2_oc) / awp),
         ("NF Membrane Replacement Cost", NF_oc / awp),
         ("Stage 1 RO Membrane Replacement Cost", RO_oc / awp),
         ("Stage 2 RO Membrane Replacement Cost", RO2_oc / awp)]
      let lines := lines ++ [("LCOW ($/m3)", fs.LCOW)]
      let lines := lines ++ [("RO Pump 1 specific Opex", pump_RO_oc / awp)]
      let lines := lines ++ [("RO Pump 2 specific Opex", pump_RO2_oc / awp)]
      let lines := lines ++
        (match fs.stoich_softening_mixer_unit with
         | some cc_oc =>
             [("Lime Softening specific CAPEX", cc_oc.1 / awp * crf),
              ("Lime Softening specific OPEX", cc_oc.2 / awp)]
         | none => [])
      let lines := lines ++
        (match fs.ideal_naocl_mixer_unit with
         | some cc_oc =>
             [("Chlorination specific CAPEX", cc_oc.1 / awp * crf),
              ("Chlorination specific OPEX", cc_oc.2 / awp)]
         | none => [])
      (fs, Except.ok lines)

/-- The labels of the report lines `display_costing` always emits when it
completes: the thirteen `cost_dict` lines, the rounded LCOW line, and the
two pump specific-Opex lines (`pump_RO` is present on every completing run
and `pump_RO2` is always present after the backfill). -/
def fixedReportLabels : List String :=
  ["LCOW", "Total CAPEX", "Direct CAPEX", "Indirect CAPEX", "Total OPEX",
   "Maintenance/Labor/Chemical Costs", "Total Electricity Cost",
   "Stage 1 HP Pump Electricity Cost", "Stage 2 HP Pump Electricity Cost",
   "Total Membrane Replacement Cost", "NF Membrane Replacement Cost",
   "Stage 1 RO Membrane Replacement Cost", "Stage 2 RO Membrane Replacement Cost",
   "LCOW ($/m3)", "RO Pump 1 specific Opex", "RO Pump 2 specific Opex"]

/-- Claim C2: whenever the NF block is present and its variant selector is
"Sep", or the RO block is present and its variant selector is "Sep",
`build_costing` raises `NotImplementedError` and `get_system_costing` is
never invoked. -/
theorem build_costing_Sep_raises (fs : FlowsheetAttrs) (NF_type RO_type : String)
    (h : (fs.NF = true ∧ NF_type = "Sep") ∨ (fs.RO = true ∧ RO_type = "Sep")) :
    (∃ msg, (build_costing fs NF_type RO_type).2 =
       Except.error (PyError.notImplementedError msg)) ∧
    CostEvent.getSystemCosting ∉ (build_costing fs NF_type RO_type).1 := by
  by_cases hNF : fs.NF = true ∧ NF_type = "Sep"
  · simp [build_costing, hNF]
  · rcases h with h | ⟨hro, hsep⟩
    · exact absurd h hNF
    · by_cases hZ : fs.NF = true ∧ NF_type = "ZO" <;>
        simp [build_costing, hNF, hro, hsep, hZ]

/-- Witness for claim C2: a flowsheet with the NF block present, variant "Sep". -/
theorem build_costing_Sep_raises_witness :
    (((⟨true, false, false, false, false, false, false⟩ : FlowsheetAttrs).NF = true ∧
        ("Sep" : String) = "Sep") ∨
      ((⟨true, false, false, false, false, false, false⟩ : FlowsheetAttrs).RO = true ∧
        ("0D" : String) = "Sep")) ∧
    ((∃ msg, (build_costing ⟨true, false, false, false, false, false, false⟩ "Sep" "0D").2 =
        Except.error (PyError.notImplementedError msg)) ∧
     CostEvent.getSystemCosting ∉
       (build_costing ⟨true, false, false, false, false, false, false⟩ "Sep" "0D").1) :=
  ⟨Or.inl ⟨rfl, rfl⟩,
   build_costing_Sep_raises ⟨true, false, false, false, false, false, false⟩ "Sep" "0D"
     (Or.inl ⟨rfl, rfl⟩)⟩

/-- Claim C3, counterexample: with bypass enabled and the "Sep" variant
(ion basis), the NF-to-mixer arc is propagated although the NF unit was
never initialized, so "every propagation along an arc happens only after
its source unit was initialized" fails. -/
theorem build_pretreatment_NF_Sep_propagates_uninitialized_NF :
    Event.propagateState "s_pretrt_NF_mixer" ∈ (build_pretreatment_NF true "Sep" "ion").1 ∧
    Event.init "NF" ∉ (build_pretreatment_NF true "Sep" "ion").1 ∧
    propagationsRespectInitB (build_pretreatment_NF true "Sep" "ion").1 = false := by
  refine ⟨?_, ?_, ?_⟩ <;> decide

/-- Claim C3, amended: with bypass enabled the initialization/propagation
calls occur exactly in the stated flow order — feed, feed-to-splitter
propagation, splitter, both downstream splitter propagations, NF
initialization (present iff the variant is not "Sep"), NF-to-mixer
propagation, mixer — and every propagation is preceded by the
initialization of its arc's source unit, except the NF-to-mixer
propagation when the variant is "Sep" (where NF initialization is
skipped). -/
theorem build_pretreatment_NF_bypass_init_order (NF_base : String) :
    (initPropEvents (build_pretreatment_NF true "ZO" NF_base).1 =
      [Event.init "feed", Event.propagateState "s_pretrt_feed_splitter",
       Event.init "splitter", Event.propagateState "s_pretrt_splitter_mixer",
       Event.propagateState "s_pretrt_splitter_NF", Event.init "NF",
       Event.propagateState "s_pretrt_NF_mixer", Event.init "mixer"] ∧
     propagationsRespectInitB (build_pretreatment_NF true "ZO" NF_base).1 = true) ∧
    (initPropEvents (build_pretreatment_NF true "Sep" NF_base).1 =
      [Event.init "feed", Event.propagateState "s_pretrt_feed_splitter",
       Event.init "splitter", Event.propagateState "s_pretrt_splitter_mixer",
       Event.propagateState "s_pretrt_splitter_NF",
       Event.propagateState "s_pretrt_NF_mixer", Event.init "mixer"] ∧
     propagationsRespectInitExceptB ["s_pretrt_NF_mixer"]
       (build_pretreatment_NF true "Sep" NF_base).1 = true) :=
  ⟨⟨rfl, rfl⟩, ⟨rfl, rfl⟩⟩

/-- Claim C4: with bypass enabled, variant "ZO", base "ion": exactly the
four stated arcs are declared in order, exactly the two auxiliary units
splitter and mixer are built, the bypass split fraction is fixed at exactly
1/10, and the returned product port ("out") is the mixer outlet. -/
theorem build_pretreatment_NF_bypass_ZO_ion_structure :
    arcsDeclared (build_pretreatment_NF true "ZO" "ion").1 =
      [("s_pretrt_feed_splitter", "feed.outlet", "splitter.inlet"),
       ("s_pretrt_splitter_mixer", "splitter.bypass", "mixer.bypass"),
       ("s_pretrt_splitter_NF", "splitter.pretreatment", "NF.inlet"),
       ("s_pretrt_NF_mixer", "NF.permeate", "mixer.pretreatment")] ∧
    unitsBuilt (build_pretreatment_NF true "ZO" "ion").1 = ["splitter", "mixer"] ∧
    splitFractionsFixed (build_pretreatment_NF true "ZO" "ion").1 = [("bypass", 1/10)] ∧
    ∃ ports, (build_pretreatment_NF true "ZO" "ion").2 = Except.ok ports ∧
      ports.lookup "out" = some "mixer.outlet" :=
  ⟨rfl, rfl, rfl, ⟨_, rfl, rfl⟩⟩

/-- Claim C5: with bypass disabled, for both recognized variants and any
base, exactly one arc (feed to NF) is declared, no auxiliary unit is built,
no split fraction is fixed, and the returned product port ("out") is the NF
permeate. -/
theorem build_pretreatment_NF_no_bypass_structure (NF_base : String) :
    (arcsDeclared (build_pretreatment_NF false "ZO" NF_base).1 =
       [("s_pretrt_feed_NF", "feed.outlet", "NF.inlet")] ∧
     unitsBuilt (build_pretreatment_NF false "ZO" NF_base).1 = [] ∧
     splitFractionsFixed (build_pretreatment_NF false "ZO" NF_base).1 = [] ∧
     ∃ ports, (build_pretreatment_NF false "ZO" NF_base).2 = Except.ok ports ∧
       ports.lookup "out" = some "NF.permeate") ∧
    (arcsDeclared (build_pretreatment_NF false "Sep" NF_base).1 =
       [("s_pretrt_feed_NF", "feed.outlet", "NF.inlet")] ∧
     unitsBuilt (build_pretreatment_NF false "Sep" NF_base).1 = [] ∧
     splitFractionsFixed (build_pretreatment_NF false "Sep" NF_base).1 = [] ∧
     ∃ ports, (build_pretreatment_NF false "Sep" NF_base).2 = Except.ok ports ∧
       ports.lookup "out" = some "NF.permeate") :=
  ⟨⟨rfl, rfl, rfl, ⟨_, rfl, rfl⟩⟩, ⟨rfl, rfl, rfl, ⟨_, rfl, rfl⟩⟩⟩

/-- Claim C6, counterexample: with bypass enabled ("ZO", "ion") the
returned mapping's entries are named "out" and "waste" — there is no entry
named "product". -/
theorem build_pretreatment_NF_port_not_named_product :
    ∃ ports, (build_pretreatment_NF true "ZO" "ion").2 = Except.ok ports ∧
      ports.map Prod.fst = ["out", "waste"] ∧
      ports.lookup "product" = none :=
  ⟨_, rfl, rfl, rfl⟩

/-- Claim C6, amended: with bypass enabled, for both recognized variants
and any base, the returned mapping contains exactly two entries, named
"out" and "waste" (in that order), and the waste port is the NF retentate
regardless of variant. -/
theorem build_pretreatment_NF_bypass_ports (NF_base : String) :
    (∃ ports, (build_pretreatment_NF true "ZO" NF_base).2 = Except.ok ports ∧
       ports.map Prod.fst = ["out", "waste"] ∧
       ports.lookup "waste" = some "NF.retentate") ∧
    (∃ ports, (build_pretreatment_NF true "Sep" NF_base).2 = Except.ok ports ∧
       ports.map Prod.fst = ["out", "waste"] ∧
       ports.lookup "waste" = some "NF.retentate") :=
  ⟨⟨_, rfl, rfl, rfl⟩, ⟨_, rfl, rfl, rfl⟩⟩

/-- Claim C7: for a flowsheet carrying the first-stage pump and RO blocks
but missing `pump_RO2`, `NF` and `RO2`, `display_costing` backfills a
zero-valued placeholder cost container for each of the three missing blocks
and then emits every line of the fixed report layout, with zero-valued
contributions on the lines belonging to the missing blocks, without
raising. -/
theorem display_costing_backfills_missing_blocks (fs : CostFS)
    (hp : fs.pump_RO.isSome = true) (hr : fs.RO.isSome = true)
    (h2 : fs.pump_RO2 = none) (hn : fs.NF = none) (h3 : fs.RO2 = none) :
    (display_costing fs).1.pump_RO2 = some 0 ∧
    (display_costing fs).1.NF = some 0 ∧
    (display_costing fs).1.RO2 = some 0 ∧
    ∃ lines rest, (display_costing fs).2 = Except.ok lines ∧
      lines.map Prod.fst = fixedReportLabels ++ rest ∧
      lines.lookup "Stage 2 HP Pump Electricity Cost" = some 0 ∧
      lines.lookup "NF Membrane Replacement Cost" = some 0 ∧
      lines.lookup "Stage 2 RO Membrane Replacement Cost" = some 0 := by
  rcases fs with ⟨lc, ict, cct, oct, mlc, crf, awp, pro, pro2, nf, ro, ro2, sm, im⟩
  obtain ⟨p, hp'⟩ := Option.isSome_iff_exists.mp hp
  obtain ⟨r, hr'⟩ := Option.isSome_iff_exists.mp hr
  simp only at hp' hr' h2 hn h3
  subst hp' hr' h2 hn h3
  cases sm <;> cases im <;>
    simp [display_costing, fixedReportLabels, List.lookup]

/-- Witness for claim C7 at a concrete flowsheet with `pump_RO` and `RO`
present and `pump_RO2`, `NF`, `RO2` absent. -/
theorem display_costing_backfills_missing_blocks_witness :
    ((⟨1, 1, 1, 1, 1, 1, 1, some 1, none, none, some 1, none, none, none⟩ :
        CostFS).pump_RO.isSome = true ∧
     (⟨1, 1, 1, 1, 1, 1, 1, some 1, none, none, some 1, none, none, none⟩ :
        CostFS).RO.isSome = true) ∧
    ((display_costing ⟨1, 1, 1, 1, 1, 1, 1, some 1, none, none, some 1, none,
        none, none⟩).1.pump_RO2 = some 0 ∧
     (display_costing ⟨1, 1, 1, 1, 1, 1, 1, some 1, none, none, some 1, none,
        none, none⟩).1.NF = some 0 ∧
     (display_costing ⟨1, 1, 1, 1, 1, 1, 1, some 1, none, none, some 1, none,
        none, none⟩).1.RO2 = some 0 ∧
     ∃ lines rest, (display_costing ⟨1, 1, 1, 1, 1, 1, 1, some 1, none, none,
        some 1, none, none, none⟩).2 = Except.ok lines ∧
       lines.map Prod.fst = fixedReportLabels ++ rest ∧
       lines.lookup "Stage 2 HP Pump Electricity Cost" = some 0 ∧
       lines.lookup "NF Membrane Replacement Cost" = some 0 ∧
       lines.lookup "Stage 2 RO Membrane Replacement Cost" = some 0) :=
  ⟨⟨rfl, rfl⟩,
   display_costing_backfills_missing_blocks
     ⟨1, 1, 1, 1, 1, 1, 1, some 1, none, none, some 1, none, none, none⟩
     rfl rfl rfl rfl rfl⟩

/-- Claim C8, counterexample: on a flowsheet without an `NF` block,
`display_costing` attaches a placeholder `NF` block (zero operating cost),
so the flowsheet's set of sub-blocks is not left unchanged. -/
theorem display_costing_mutates_missing_NF :
    (display_costing ⟨1, 1, 1, 1, 1, 1, 1, some 1, some 1, none, some 1, some 1,
        none, none⟩).1.NF = some 0 ∧
    (⟨1, 1, 1, 1, 1, 1, 1, some 1, some 1, none, some 1, some 1,
        none, none⟩ : CostFS).NF = none ∧
    (display_costing ⟨1, 1, 1, 1, 1, 1, 1, some 1, some 1, none, some 1, some 1,
        none, none⟩).1 ≠
      ⟨1, 1, 1, 1, 1, 1, 1, some 1, some 1, none, some 1, some 1, none, none⟩ := by
  refine ⟨rfl, rfl, fun h => ?_⟩
  exact Option.noConfusion (congrArg CostFS.NF h)

/-- Claim C8, amended: `display_costing` never removes a sub-block and
never alters an existing cost value; its only mutation is attaching
zero-valued placeholder costing blocks for `pump_RO2`, `NF` and `RO2` when
those are absent — the post-state equals the pre-state with exactly those
three fields defaulted to zero, so when all three blocks are present the
flowsheet is left completely unchanged. -/
theorem display_costing_post_state (fs : CostFS) :
    (display_costing fs).1 =
      { fs with pump_RO2 := some (fs.pump_RO2.getD 0),
                NF := some (fs.NF.getD 0),
                RO2 := some (fs.RO2.getD 0) } := by
  rcases fs with ⟨lc, ict, cct, oct, mlc, crf, awp, pro, pro2, nf, ro, ro2, sm, im⟩
  cases pro2 <;> cases nf <;> cases ro2 <;> cases pro <;> cases ro <;> rfl

/-- Claim C9: when the NF block is present with a variant selector that is
neither "ZO" nor "Sep", and the RO block is present with a selector neither
"0D" nor "Sep", `build_costing` silently skips costing both units — it
returns without error, never calls their `get_costing`, and still invokes
`get_system_costing`. -/
theorem build_costing_unrecognized_skips (fs : FlowsheetAttrs) (NF_type RO_type : String)
    (hNF : fs.NF = true) (h1 : NF_type ≠ "ZO") (h2 : NF_type ≠ "Sep")
    (hRO : fs.RO = true) (h3 : RO_type ≠ "0D") (h4 : RO_type ≠ "Sep") :
    (build_costing fs NF_type RO_type).2 = Except.ok () ∧
    CostEvent.getSystemCosting ∈ (build_costing fs NF_type RO_type).1 ∧
    CostEvent.getCosting "NF" [] ∉ (build_costing fs NF_type RO_type).1 ∧
    CostEvent.getCosting "RO" [] ∉ (build_costing fs NF_type RO_type).1 := by
  rcases fs with ⟨nf, ro, p1, p2, r2, sm, im⟩
  simp only at hNF hRO
  subst hNF hRO
  cases p1 <;> cases p2 <;> cases r2 <;> cases sm <;> cases im <;>
    simp [build_costing, h1, h2, h3, h4]

/-- Witness for claim C9 at a flowsheet with NF and RO present and the
unrecognized selectors "foo" and "bar". -/
theorem build_costing_unrecognized_skips_witness :
    ((⟨true, true, false, false, false, false, false⟩ : FlowsheetAttrs).NF = true ∧
     ("foo" : String) ≠ "ZO" ∧ ("foo" : String) ≠ "Sep" ∧
     (⟨true, true, false, false, false, false, false⟩ : FlowsheetAttrs).RO = true ∧
     ("bar" : String) ≠ "0D" ∧ ("bar" : String) ≠ "Sep") ∧
    ((build_costing ⟨true, true, false, false, false, false, false⟩ "foo" "bar").2 =
       Except.ok () ∧
     CostEvent.getSystemCosting ∈
       (build_costing ⟨true, true, false, false, false, false, false⟩ "foo" "bar").1 ∧
     CostEvent.getCosting "NF" [] ∉
       (build_costing ⟨true, true, false, false, false, false, false⟩ "foo" "bar").1 ∧
     CostEvent.getCosting "RO" [] ∉
       (build_costing ⟨true, true, false, false, false, false, false⟩ "foo" "bar").1) :=
  ⟨⟨rfl, by decide, by decide, rfl, by decide, by decide⟩,
   build_costing_unrecognized_skips ⟨true, true, false, false, false, false, false⟩
     "foo" "bar" rfl (by decide) (by decide) rfl (by decide) (by decide)⟩

/-- Claim C10: the backfill leaves `pump_RO` and `RO` untouched, and when
either of those blocks is absent `display_costing` raises
`AttributeError` instead of completing the report. -/
theorem display_costing_missing_pump_RO_or_RO_raises (fs : CostFS)
    (h : fs.pump_RO = none ∨ fs.RO = none) :
    (display_costing fs).1.pump_RO = fs.pump_RO ∧
    (display_costing fs).1.RO = fs.RO ∧
    ∃ name, (display_costing fs).2 = Except.error (PyError.attributeError name) := by
  rcases fs with ⟨lc, ict, cct, oct, mlc, crf, awp, pro, pro2, nf, ro, ro2, sm, im⟩
  simp only at h
  rcases h with h | h
  · subst h
    cases pro2 <;> cases nf <;> cases ro2 <;> exact ⟨rfl, rfl, _, rfl⟩
  · subst h
    cases pro <;> cases pro2 <;> cases nf <;> cases ro2 <;>
      exact ⟨rfl, rfl, _, rfl⟩

/-- Witness for claim C10 at a flowsheet missing the `pump_RO` block. -/
theorem display_costing_missing_pump_RO_or_RO_raises_witness :
    ((⟨1, 1, 1, 1, 1, 1, 1, none, some 1, some 1, some 1, some 1, none, none⟩ :
        CostFS).pump_RO = none ∨
     (⟨1, 1, 1, 1, 1, 1, 1, none, some 1, some 1, some 1, some 1, none, none⟩ :
        CostFS).RO = none) ∧
    ((display_costing ⟨1, 1, 1, 1, 1, 1, 1, none, some 1, some 1, some 1, some 1,
        none, none⟩).1.pump_RO = none ∧
     (display_costing ⟨1, 1, 1, 1, 1, 1, 1, none, some 1, some 1, some 1, some 1,
        none, none⟩).1.RO = some 1 ∧
     ∃ name, (display_costing ⟨1, 1, 1, 1, 1, 1, 1, none, some 1, some 1, some 1,
        some 1, none, none⟩).2 = Except.error (PyError.attributeError name)) :=
  ⟨Or.inl rfl,
   display_costing_missing_pump_RO_or_RO_raises
     ⟨1, 1, 1, 1, 1, 1, 1, none, some 1, some 1, some 1, some 1, none, none⟩
     (Or.inl rfl)⟩
